import Mathlib

/-!
Verification of the zarr-python v2 array-metadata core: the versioned
data-type (JSON value) encoding, the data-type registry, and the
`ArrayV2Metadata` document (construction, validation, serialization and
derived operations), shallowly embedded from
`src/zarr/core/metadata/v2.py` and `src/zarr/core/config.py`.  Components
of the repository that are referenced but whose source is not part of the
inspected slice (the dtype wrapper classes, the registry, and small
helpers such as `parse_shapelike`) are modelled from the specification and
marked as such in their doc comments.
-/

set_option maxHeartbeats 1600000

namespace Zarr

/-- JSON-safe model of a floating-point payload: finite values are kept as
exact rationals (no rounding is performed by the JSON encoding layer), and
the three non-finite values are distinguished, since the spec encodes them
with sentinel strings. -/
inductive JFloat where
  | finite (q : Rat)
  | nan
  | inf
  | neginf
deriving DecidableEq

/-- A JSON value, as produced and consumed by the metadata layer. -/
inductive JsonValue where
  | null
  | bool (b : Bool)
  | int (i : Int)
  | num (q : Rat)
  | str (s : String)
  | arr (xs : List JsonValue)
  | obj (kvs : List (String × JsonValue))

/-- Python truthiness of a JSON-decoded value, as used by
`codec_config.get("checksum", False)` tests in `to_dict`. -/
def JsonValue.truthy : JsonValue → Bool
  | .null => false
  | .bool b => b
  | .int i => i != 0
  | .num q => q != 0
  | .str s => s != ""
  | .arr xs => !xs.isEmpty
  | .obj kvs => !kvs.isEmpty

/-- Time units supported by the datetime64 data type. -/
inductive TimeUnit where
  | s
  | ms
  | us
  | ns
deriving DecidableEq

def TimeUnit.name : TimeUnit → String
  | .s => "s"
  | .ms => "ms"
  | .us => "us"
  | .ns => "ns"

/-- A native (numpy) dtype descriptor, as far as the metadata layer
inspects it: its kind character, object flag, and parametrization.
`structuredN` models a numpy structured dtype (kind `V`, `hasobject`
false for the field types appearing in this core). -/
inductive NpDtype where
  | bool
  | int8 | int16 | int32 | int64
  | uint8 | uint16 | uint32 | uint64
  | float16 | float32 | float64
  | complex64 | complex128
  | unicode (n : Nat)
  | bytesS (n : Nat)
  | void (n : Nat)
  | object
  | datetime64 (u : TimeUnit)
  | structuredN (fields : List (String × NpDtype))

/-- The numpy `dtype.kind` character. -/
def NpDtype.kind : NpDtype → Char
  | .bool => 'b'
  | .int8 | .int16 | .int32 | .int64 => 'i'
  | .uint8 | .uint16 | .uint32 | .uint64 => 'u'
  | .float16 | .float32 | .float64 => 'f'
  | .complex64 | .complex128 => 'c'
  | .unicode _ => 'U'
  | .bytesS _ => 'S'
  | .void _ => 'V'
  | .object => 'O'
  | .datetime64 _ => 'M'
  | .structuredN _ => 'V'

/-- The numpy `dtype.hasobject` flag.  Only the object dtype carries
Python objects in this core (structured dtypes here are built from
numeric/fixed-width fields). -/
def NpDtype.hasobject : NpDtype → Bool
  | .object => true
  | _ => false

/-- A printable name for a native dtype, used in registry error messages
(the analogue of Python `str(dtype)`). -/
def NpDtype.name : NpDtype → String
  | .bool => "bool"
  | .int8 => "int8"
  | .int16 => "int16"
  | .int32 => "int32"
  | .int64 => "int64"
  | .uint8 => "uint8"
  | .uint16 => "uint16"
  | .uint32 => "uint32"
  | .uint64 => "uint64"
  | .float16 => "float16"
  | .float32 => "float32"
  | .float64 => "float64"
  | .complex64 => "complex64"
  | .complex128 => "complex128"
  | .unicode n => "<U" ++ toString n
  | .bytesS n => "|S" ++ toString n
  | .void n => "|V" ++ toString n
  | .object => "object"
  | .datetime64 u => "datetime64[" ++ u.name ++ "]"
  | .structuredN _ => "void"

/-- A Python scalar value as it flows through fill-value parsing and the
per-scalar JSON codec.  Bytes are `Nat`s that are meant to be `< 256`;
`npVoid` is a numpy void scalar (raw bytes of an opaque or structured
kind), `datetime none` is the not-a-time sentinel. -/
inductive PyValue where
  | bool (b : Bool)
  | int (i : Int)
  | float (f : JFloat)
  | complex (re im : JFloat)
  | str (s : String)
  | bytes (bs : List Nat)
  | npVoid (bs : List Nat)
  | datetime (v : Option Int)
  | record (vals : List PyValue)

/-- Python `fill_value == 0` as evaluated by `parse_fill_value` (numeric
zeros and `False` compare equal to `0`; strings, bytes and void never
do). -/
def PyValue.eqZero : PyValue → Bool
  | .bool b => !b
  | .int i => i == 0
  | .float (.finite q) => q == 0
  | .complex (.finite re) (.finite im) => re == 0 && im == 0
  | _ => false

def PyValue.isVoid : PyValue → Bool
  | .npVoid _ => true
  | _ => false

def PyValue.isStr : PyValue → Bool
  | .str _ => true
  | _ => false

def PyValue.isBytes : PyValue → Bool
  | .bytes _ => true
  | _ => false

/-- Modelled from the spec: the supported Type Wrapper kinds (the dtype
wrapper classes of `zarr.core.dtype._numpy`, whose source is not part of
the inspected slice): booleans, signed/unsigned integers of multiple
widths, floats, complex numbers, fixed-length text/bytes, variable-length
text, structured records, and timestamps. -/
inductive DTypeWrapper where
  | bool
  | int8 | int16 | int32 | int64
  | uint8 | uint16 | uint32 | uint64
  | float16 | float32 | float64
  | complex64 | complex128
  | fixedLengthUnicode (length : Nat)
  | fixedLengthAscii (length : Nat)
  | fixedLengthBytes (length : Nat)
  | variableLengthString
  | datetime64 (unit : TimeUnit)
  | structured (fields : List (String × DTypeWrapper))

/-- The standard base64 alphabet, in index order. -/
def b64chars : List Char :=
  ['A','B','C','D','E','F','G','H','I','J','K','L','M','N','O','P',
   'Q','R','S','T','U','V','W','X','Y','Z',
   'a','b','c','d','e','f','g','h','i','j','k','l','m','n','o','p',
   'q','r','s','t','u','v','w','x','y','z',
   '0','1','2','3','4','5','6','7','8','9','+','/']

/-- Character for a 6-bit group. -/
def idxChar (i : Nat) : Char := b64chars.getD i 'A'

/-- Index of a base64 alphabet character ( `none` for characters outside
the alphabet, including the padding character). -/
def charIdx (c : Char) : Option Nat := b64chars.indexOf? c

/-- Standard base64 encoding of a byte list (bytes are `Nat`s `< 256`),
processing three bytes per four-character group with `=` padding, as in
Python's `base64.standard_b64encode`. -/
def b64encode : List Nat → List Char
  | [] => []
  | [a] => [idxChar (a / 4), idxChar (a % 4 * 16), '=', '=']
  | [a, b] => [idxChar (a / 4), idxChar (a % 4 * 16 + b / 16), idxChar (b % 16 * 4), '=']
  | a :: b :: c :: rest =>
      idxChar (a / 4) :: idxChar (a % 4 * 16 + b / 16) ::
      idxChar (b % 16 * 4 + c / 64) :: idxChar (c % 64) :: b64encode rest

/-- Standard base64 decoding, the inverse of `b64encode`; fails on inputs
that are not valid padded base64, as Python's
`base64.standard_b64decode` does. -/
def b64decode : List Char → Option (List Nat)
  | [] => some []
  | c1 :: c2 :: c3 :: c4 :: rest =>
    match charIdx c1, charIdx c2 with
    | some i1, some i2 =>
      if c3 = '=' then
        if c4 = '=' ∧ rest = [] ∧ i2 % 16 = 0 then some [i1 * 4 + i2 / 16] else none
      else
        match charIdx c3 with
        | some i3 =>
          if c4 = '=' then
            if rest = [] ∧ i3 % 4 = 0 then
              some [i1 * 4 + i2 / 16, i2 % 16 * 16 + i3 / 4]
            else none
          else
            match charIdx c4 with
            | some i4 =>
              (b64decode rest).map
                (fun bs => (i1 * 4 + i2 / 16) :: (i2 % 16 * 16 + i3 / 4) :: (i3 % 4 * 64 + i4) :: bs)
            | none => none
        | none => none
    | _, _ => none
  | _ => none

/-- Modelled from the spec: the native numpy dtype a wrapper wraps
(`to_dtype`; the wrapper classes' source is not part of the inspected
slice).  The variable-length string kind wraps the numpy object dtype. -/
def DTypeWrapper.to_dtype : DTypeWrapper → NpDtype
  | .bool => .bool
  | .int8 => .int8
  | .int16 => .int16
  | .int32 => .int32
  | .int64 => .int64
  | .uint8 => .uint8
  | .uint16 => .uint16
  | .uint32 => .uint32
  | .uint64 => .uint64
  | .float16 => .float16
  | .float32 => .float32
  | .float64 => .float64
  | .complex64 => .complex64
  | .complex128 => .complex128
  | .fixedLengthUnicode n => .unicode n
  | .fixedLengthAscii n => .bytesS n
  | .fixedLengthBytes n => .void n
  | .variableLengthString => .object
  | .datetime64 u => .datetime64 u
  | .structured fields => .structuredN (structFields fields)
where
  structFields : List (String × DTypeWrapper) → List (String × NpDtype)
    | [] => []
    | (n, w) :: fs => (n, w.to_dtype) :: structFields fs

/-- Modelled from the spec: the stable zarr-format-2 name string of a
wrapper (`get_name(zarr_format=2)`): numpy byte-order-qualified
descriptor strings. -/
def DTypeWrapper.get_name_v2 : DTypeWrapper → String
  | .bool => "|b1"
  | .int8 => "|i1"
  | .int16 => "<i2"
  | .int32 => "<i4"
  | .int64 => "<i8"
  | .uint8 => "|u1"
  | .uint16 => "<u2"
  | .uint32 => "<u4"
  | .uint64 => "<u8"
  | .float16 => "<f2"
  | .float32 => "<f4"
  | .float64 => "<f8"
  | .complex64 => "<c8"
  | .complex128 => "<c16"
  | .fixedLengthUnicode n => "<U" ++ toString n
  | .fixedLengthAscii n => "|S" ++ toString n
  | .fixedLengthBytes n => "|V" ++ toString n
  | .variableLengthString => "|O"
  | .datetime64 u => "<M8[" ++ u.name ++ "]"
  | .structured _ => "|V0"

/-- Sentinel-string encoding of a float payload (NaN and the infinities
are not JSON numbers, so they are encoded as sentinel strings, identically
in both format versions). -/
def encodeFloat : JFloat → JsonValue
  | .finite q => .num q
  | .nan => .str "NaN"
  | .inf => .str "Infinity"
  | .neginf => .str "-Infinity"

/-- Inverse of `encodeFloat`. -/
def decodeFloat : JsonValue → Option JFloat
  | .num q => some (.finite q)
  | .int i => some (.finite (i : Rat))
  | .str "NaN" => some .nan
  | .str "Infinity" => some .inf
  | .str "-Infinity" => some .neginf
  | _ => none

mutual

/-- Modelled from the spec: `to_json_value(value, format_version)`, the
per-scalar JSON encoding of each wrapper kind: booleans to booleans,
integers to integers, floats to numbers (non-finite values to sentinel
strings), complex numbers to a two-element `[real, imag]` array,
fixed-length byte/opaque kinds to the base64 string of the raw bytes,
text to the string itself, structured kinds to the per-field recursive
encoding ordered by field declaration, and timestamps to the integer
epoch offset with `null` for not-a-time.  The encoding is identical for
format versions 2 and 3; the version argument is therefore unused. -/
def to_json_value : DTypeWrapper → PyValue → Nat → Option JsonValue
  | .bool, .bool b, _ => some (.bool b)
  | .int8, .int i, _ => some (.int i)
  | .int16, .int i, _ => some (.int i)
  | .int32, .int i, _ => some (.int i)
  | .int64, .int i, _ => some (.int i)
  | .uint8, .int i, _ => some (.int i)
  | .uint16, .int i, _ => some (.int i)
  | .uint32, .int i, _ => some (.int i)
  | .uint64, .int i, _ => some (.int i)
  | .float16, .float f, _ => some (encodeFloat f)
  | .float32, .float f, _ => some (encodeFloat f)
  | .float64, .float f, _ => some (encodeFloat f)
  | .complex64, .complex re im, _ => some (.arr [encodeFloat re, encodeFloat im])
  | .complex128, .complex re im, _ => some (.arr [encodeFloat re, encodeFloat im])
  | .fixedLengthUnicode _, .str s, _ => some (.str s)
  | .fixedLengthAscii _, .bytes bs, _ => some (.str (String.mk (b64encode bs)))
  | .fixedLengthBytes _, .npVoid bs, _ => some (.str (String.mk (b64encode bs)))
  | .variableLengthString, .str s, _ => some (.str s)
  | .datetime64 _, .datetime none, _ => some .null
  | .datetime64 _, .datetime (some i), _ => some (.int i)
  | .structured fields, .record vals, v => (to_json_fields fields vals v).map .arr
  | _, _, _ => none

/-- Per-field encoding of a structured scalar, ordered by field
declaration. -/
def to_json_fields : List (String × DTypeWrapper) → List PyValue → Nat → Option (List JsonValue)
  | [], [], _ => some []
  | (_, w) :: fs, x :: xs, v =>
    match to_json_value w x v, to_json_fields fs xs v with
    | some j, some js => some (j :: js)
    | _, _ => none
  | _, _, _ => none

end

mutual

/-- Modelled from the spec: `from_json_value(json, format_version)`, the
exact inverse of `to_json_value`, including base64 decoding and
epoch-offset reconstruction.  Identical for both format versions. -/
def from_json_value : DTypeWrapper → JsonValue → Nat → Option PyValue
  | .bool, .bool b, _ => some (.bool b)
  | .int8, .int i, _ => some (.int i)
  | .int16, .int i, _ => some (.int i)
  | .int32, .int i, _ => some (.int i)
  | .int64, .int i, _ => some (.int i)
  | .uint8, .int i, _ => some (.int i)
  | .uint16, .int i, _ => some (.int i)
  | .uint32, .int i, _ => some (.int i)
  | .uint64, .int i, _ => some (.int i)
  | .float16, j, _ => (decodeFloat j).map .float
  | .float32, j, _ => (decodeFloat j).map .float
  | .float64, j, _ => (decodeFloat j).map .float
  | .complex64, .arr [a, b], _ =>
    match decodeFloat a, decodeFloat b with
    | some re, some im => some (.complex re im)
    | _, _ => none
  | .complex128, .arr [a, b], _ =>
    match decodeFloat a, decodeFloat b with
    | some re, some im => some (.complex re im)
    | _, _ => none
  | .fixedLengthUnicode _, .str s, _ => some (.str s)
  | .fixedLengthAscii _, .str s, _ => (b64decode s.data).map .bytes
  | .fixedLengthBytes _, .str s, _ => (b64decode s.data).map .npVoid
  | .variableLengthString, .str s, _ => some (.str s)
  | .datetime64 _, .null, _ => some (.datetime none)
  | .datetime64 _, .int i, _ => some (.datetime (some i))
  | .structured fields, .arr js, v => (from_json_fields fields js v).map .record
  | _, _, _ => none

/-- Per-field decoding of a structured scalar. -/
def from_json_fields : List (String × DTypeWrapper) → List JsonValue → Nat → Option (List PyValue)
  | [], [], _ => some []
  | (_, w) :: fs, j :: js, v =>
    match from_json_value w j v, from_json_fields fs js v with
    | some x, some xs => some (x :: xs)
    | _, _ => none
  | _, _, _ => none

end

mutual

/-- Modelled from the spec: the representative scalars of each wrapper's
native type (the scalar values a wrapper can hold): range-checked machine
integers, byte payloads of bytes `< 256`, and per-field valid records for
structured kinds.  Finite floats are modelled as exact rationals. -/
def isValidScalar : DTypeWrapper → PyValue → Bool
  | .bool, .bool _ => true
  | .int8, .int i => -128 ≤ i && i < 128
  | .int16, .int i => -32768 ≤ i && i < 32768
  | .int32, .int i => -(2 ^ 31) ≤ i && i < 2 ^ 31
  | .int64, .int i => -(2 ^ 63) ≤ i && i < 2 ^ 63
  | .uint8, .int i => 0 ≤ i && i < 256
  | .uint16, .int i => 0 ≤ i && i < 65536
  | .uint32, .int i => 0 ≤ i && i < 2 ^ 32
  | .uint64, .int i => 0 ≤ i && i < 2 ^ 64
  | .float16, .float _ => true
  | .float32, .float _ => true
  | .float64, .float _ => true
  | .complex64, .complex _ _ => true
  | .complex128, .complex _ _ => true
  | .fixedLengthUnicode n, .str s => s.length ≤ n
  | .fixedLengthAscii n, .bytes bs => bs.length ≤ n && bs.all (· < 256)
  | .fixedLengthBytes n, .npVoid bs => bs.length == n && bs.all (· < 256)
  | .variableLengthString, .str _ => true
  | .datetime64 _, .datetime _ => true
  | .structured fields, .record vals => validFields fields vals
  | _, _ => false

/-- Validity of a record's values against a field list, pointwise. -/
def validFields : List (String × DTypeWrapper) → List PyValue → Bool
  | [], [] => true
  | (_, w) :: fs, x :: xs => isValidScalar w x && validFields fs xs
  | _, _ => false

end

/-- The error kinds surfaced by this core: Python `ValueError`
(shape-mismatch, enumeration, fill-value and no-match errors carry their
message), `TypeError`, and `KeyError` (not-found lookups and
`dict.pop` on a missing key). -/
inductive ZErr where
  | valueError (msg : String)
  | typeError (msg : String)
  | keyError (key : String)
  | shapeMismatch (lChunks lShape : Nat)
  | fillValueError (msg : String)

/-- A numcodecs codec instance, as far as this core inspects it: per the
spec, a codec configuration is an object with an identifying key (`id`)
plus codec-specific parameters; `get_config` returns exactly that
object. -/
structure Codec where
  id : String
  params : List (String × JsonValue)

/-- The codec's configuration dict, with the identifying key first. -/
def Codec.get_config (c : Codec) : List (String × JsonValue) :=
  ("id", .str c.id) :: c.params

/-- A compressor/filter argument: either an already-instantiated codec
object or its JSON configuration dict. -/
inductive CodecOrDict where
  | codec (c : Codec)
  | dict (d : List (String × JsonValue))

/-- Modelled from the spec: `numcodecs.get_codec` (external collaborator),
the codec-configuration resolver: a configuration dict with an `id` key
resolves to the codec it names; anything else fails. -/
def get_codec (d : List (String × JsonValue)) : Except ZErr Codec :=
  match d.lookup "id" with
  | some (.str s) => .ok ⟨s, d.filter (fun p => p.1 != "id")⟩
  | _ => .error (.valueError "codec configuration must name a codec id")

/-- Modelled from the spec: a data-type wrapper factory held by the
registry.  `matchesDtype` is the structural test (`from_dtype` succeeding) and
`build` constructs the wrapper instance from the native type. -/
structure DTypeFactory where
  matchesDtype : NpDtype → Bool
  build : NpDtype → DTypeWrapper

/-- Modelled from the spec: the process-wide Data Type Registry, a mapping
from stable name to wrapper factory (the registry source is not part of
the inspected slice).  `contents` holds one entry per name; mutation is
modelled functionally. -/
structure DataTypeRegistry where
  contents : List (String × DTypeFactory)

/-- `register(name, factory)`: unconditional insert/override (last write
wins, no error); the previous entry under the same name is removed. -/
def DataTypeRegistry.register (r : DataTypeRegistry) (name : String) (f : DTypeFactory) :
    DataTypeRegistry :=
  ⟨(name, f) :: r.contents.filter (fun p => p.1 != name)⟩

/-- `get(name)`: fails with a not-found (`KeyError`) error when the name
is absent. -/
def DataTypeRegistry.get (r : DataTypeRegistry) (name : String) : Except ZErr DTypeFactory :=
  match r.contents.find? (fun p => p.1 == name) with
  | some (_, f) => .ok f
  | none => .error (.keyError name)

/-- `match_dtype(native_type)`: scans the registered factories for a
structural match; zero matches fail with a no-match `ValueError` naming
the native type. -/
def DataTypeRegistry.match_dtype (r : DataTypeRegistry) (dt : NpDtype) :
    Except ZErr DTypeWrapper :=
  match r.contents.find? (fun p => p.2.matchesDtype dt) with
  | some (_, f) => .ok (f.build dt)
  | none =>
    .error (.valueError ("No data type wrapper found that matches dtype '" ++ dt.name ++ "'"))

mutual

/-- `np.zeros((), dtype=dtype)[()]`: the canonical zero scalar of a
native dtype (Modelled from the spec: numpy is an external collaborator;
numeric zero, empty string, zero bytes, epoch zero, zero-filled
record). -/
def zeroScalar : NpDtype → PyValue
  | .bool => .bool false
  | .int8 | .int16 | .int32 | .int64 => .int 0
  | .uint8 | .uint16 | .uint32 | .uint64 => .int 0
  | .float16 | .float32 | .float64 => .float (.finite 0)
  | .complex64 | .complex128 => .complex (.finite 0) (.finite 0)
  | .unicode _ => .str ""
  | .bytesS _ => .bytes []
  | .void n => .npVoid (List.replicate n 0)
  | .object => .int 0
  | .datetime64 _ => .datetime (some 0)
  | .structuredN fields => .record (zeroFields fields)

/-- Zero-filled record fields. -/
def zeroFields : List (String × NpDtype) → List PyValue
  | [] => []
  | (_, dt) :: fs => zeroScalar dt :: zeroFields fs

end

/-- All characters of a string are ASCII. -/
def asciiOnly (s : String) : Bool := s.data.all (fun c => c.toNat < 128)

/-- `np.array(fill_value, dtype=dtype)[()]` (Modelled from the spec: numpy
casting is an external collaborator; "anything else is cast into the
target type").  Returns `none` when the cast fails: out-of-range
integers, over-long strings or bytes, and kind-incompatible inputs. -/
def castTo (v : PyValue) (dt : NpDtype) : Option PyValue :=
  match v, dt with
  | .bool b, .bool => some (.bool b)
  | .bool b, .int8 | .bool b, .int16 | .bool b, .int32 | .bool b, .int64
  | .bool b, .uint8 | .bool b, .uint16 | .bool b, .uint32 | .bool b, .uint64 =>
    some (.int (if b then 1 else 0))
  | .bool b, .float16 | .bool b, .float32 | .bool b, .float64 =>
    some (.float (.finite (if b then 1 else 0)))
  | .int i, .int8 => if -128 ≤ i ∧ i < 128 then some (.int i) else none
  | .int i, .int16 => if -32768 ≤ i ∧ i < 32768 then some (.int i) else none
  | .int i, .int32 => if -(2 ^ 31) ≤ i ∧ i < 2 ^ 31 then some (.int i) else none
  | .int i, .int64 => if -(2 ^ 63) ≤ i ∧ i < 2 ^ 63 then some (.int i) else none
  | .int i, .uint8 => if 0 ≤ i ∧ i < 256 then some (.int i) else none
  | .int i, .uint16 => if 0 ≤ i ∧ i < 65536 then some (.int i) else none
  | .int i, .uint32 => if 0 ≤ i ∧ i < 2 ^ 32 then some (.int i) else none
  | .int i, .uint64 => if 0 ≤ i ∧ i < 2 ^ 64 then some (.int i) else none
  | .int i, .float16 | .int i, .float32 | .int i, .float64 => some (.float (.finite (i : Rat)))
  | .int i, .complex64 | .int i, .complex128 =>
    some (.complex (.finite (i : Rat)) (.finite 0))
  | .int i, .datetime64 _ => some (.datetime (some i))
  | .float f, .float16 | .float f, .float32 | .float f, .float64 => some (.float f)
  | .float f, .complex64 | .float f, .complex128 => some (.complex f (.finite 0))
  | .complex re im, .complex64 | .complex re im, .complex128 => some (.complex re im)
  | .str s, .unicode n => if s.length ≤ n then some (.str s) else none
  | .str s, .bytesS n =>
    if asciiOnly s ∧ s.length ≤ n then some (.bytes (s.data.map Char.toNat)) else none
  | .bytes bs, .bytesS n => if bs.length ≤ n then some (.bytes bs) else none
  | .datetime d, .datetime64 _ => some (.datetime d)
  | _, _ => none

/-- Modelled from the spec: `parse_shapelike` (from `zarr.core.common`,
not part of the inspected slice): coerce a sequence to a tuple of
non-negative integers, failing on a negative entry; the length is
preserved. -/
def parse_shapelike (data : List Int) : Except ZErr (List Nat) :=
  if data.all (fun i => 0 ≤ i) then .ok (data.map Int.toNat)
  else .error (.valueError "Expected all values to be non-negative.")

/-- `parse_indexing_order` (from `zarr.core.config`): the order must be
`"C"` or `"F"`. -/
def parse_indexing_order (data : String) : Except ZErr String :=
  if data = "C" ∨ data = "F" then .ok data
  else .error (.valueError ("Expected one of ('C', 'F'), got " ++ data ++ " instead."))

/-- Modelled from the spec: `parse_separator` (from
`zarr.core.chunk_key_encodings`, not part of the inspected slice): the
dimension separator must be `"."` or `"/"`. -/
def parse_separator (data : String) : Except ZErr String :=
  if data = "." ∨ data = "/" then .ok data
  else .error (.valueError ("Expected '.' or '/', got " ++ data ++ " instead."))

/-- Modelled from the spec: `parse_attributes` (from
`zarr.core.metadata.common`, not part of the inspected slice): `None`
becomes the empty mapping; a mapping is kept as-is. -/
def parse_attributes (data : Option (List (String × JsonValue))) : List (String × JsonValue) :=
  match data with
  | none => []
  | some a => a

/-- `parse_zarr_format` (v2.py): the format marker must be the literal
`2`. -/
def parse_zarr_format (data : Int) : Except ZErr Unit :=
  if data = 2 then .ok ()
  else .error (.valueError ("Invalid value. Expected 2. Got " ++ toString data ++ "."))

/-- `parse_filters` (v2.py): `None` passes through; each element of an
iterable is kept (codec) or resolved (`get_codec` on a dict); an empty
iterable is normalized to `None` (the v2 format forbids an
empty-but-present filter list) — with no diagnostic raised here. -/
def parse_filters (data : Option (List CodecOrDict)) : Except ZErr (Option (List Codec)) :=
  match data with
  | none => .ok none
  | some items =>
    match parseItems items with
    | .error e => .error e
    | .ok out => if out.length = 0 then .ok none else .ok (some out)
where
  parseItems : List CodecOrDict → Except ZErr (List Codec)
    | [] => .ok []
    | .codec c :: rest => (parseItems rest).map (c :: ·)
    | .dict d :: rest =>
      match get_codec d with
      | .ok c => (parseItems rest).map (c :: ·)
      | .error e => .error e

/-- `parse_compressor` (v2.py): `None` and codec instances pass through; a
dict is resolved through `get_codec`. -/
def parse_compressor (data : Option CodecOrDict) : Except ZErr (Option Codec) :=
  match data with
  | none => .ok none
  | some (.codec c) => .ok (some c)
  | some (.dict d) => (get_codec d).map some

/-- `np.array(fill_value, dtype=dtype.str).view(dtype)[()]` (Modelled
from the spec: numpy is an external collaborator): raw bytes are
reinterpreted structurally as a void scalar of the dtype's item size. -/
def viewAsVoid (v : PyValue) (dt : NpDtype) : Option PyValue :=
  match v, dt with
  | .bytes bs, .void n => if bs.length = n then some (.npVoid bs) else none
  | .bytes bs, .structuredN _ => some (.npVoid bs)
  | _, _ => none

/-- `parse_fill_value` (v2.py): dispatch on the dtype.  `None` or an
object dtype passes the value through unchanged; a non-void value equal
to zero collapses to the dtype's canonical zero scalar; a unicode dtype
then requires a string; a `V` dtype reinterprets raw bytes structurally;
anything else is cast, a failed cast raising a fill-value
`ValueError`. -/
def parse_fill_value (fill_value : Option PyValue) (dtype : NpDtype) :
    Except ZErr (Option PyValue) :=
  match fill_value with
  | none => .ok none
  | some v =>
    if dtype.hasobject then .ok (some v)
    else if !v.isVoid && v.eqZero then .ok (some (zeroScalar dtype))
    else if dtype.kind = 'U' then
      if v.isStr then .ok (some v)
      else .error (.fillValueError ("fill_value is not valid for dtype " ++ dtype.name ++
        "; must be a unicode string"))
    else
      match (if v.isBytes ∧ dtype.kind = 'V' then viewAsVoid v dtype else castTo v dtype) with
      | some w => .ok (some w)
      | none => .error (.fillValueError ("Fill_value is not valid for dtype " ++ dtype.name ++ "."))

/-- The Zarr format-2 array metadata document, with the fields of the
`ArrayV2Metadata` dataclass (the constant `zarr_format = 2` field is kept
as a definition below). -/
structure ArrayV2Metadata where
  shape : List Nat
  chunks : List Nat
  dtype : DTypeWrapper
  fill_value : Option PyValue
  order : String
  filters : Option (List Codec)
  dimension_separator : String
  compressor : Option Codec
  attributes : List (String × JsonValue)

/-- The constant `zarr_format` field. -/
def ArrayV2Metadata.zarr_format (_ : ArrayV2Metadata) : Nat := 2

/-- `parse_metadata` (v2.py): the consistency check run at the end of the
constructor — `shape` and `chunks` must have the same length, else a
shape-mismatch `ValueError`. -/
def parse_metadata (data : ArrayV2Metadata) : Except ZErr ArrayV2Metadata :=
  if data.chunks.length ≠ data.shape.length then
    .error (.shapeMismatch data.chunks.length data.shape.length)
  else .ok data

/-- The validating constructor `ArrayV2Metadata.__init__`: parses every
field eagerly in source order, then runs `parse_metadata`.  The second
component of the result collects the warnings emitted (the constructor
itself emits none). -/
def ArrayV2Metadata.mk' (shape : List Int) (dtype : DTypeWrapper) (chunks : List Int)
    (fill_value : Option PyValue) (order : String)
    (dimension_separator : String := ".")
    (compressor : Option CodecOrDict := none)
    (filters : Option (List CodecOrDict) := none)
    (attributes : Option (List (String × JsonValue)) := none) :
    Except ZErr (ArrayV2Metadata × List String) :=
  match parse_shapelike shape, parse_shapelike chunks, parse_compressor compressor,
        parse_indexing_order order, parse_separator dimension_separator,
        parse_filters filters, parse_fill_value fill_value dtype.to_dtype with
  | .ok sp, .ok cp, .ok comp, .ok ord, .ok sep, .ok filt, .ok fv =>
    match parse_metadata ⟨sp, cp, dtype, fv, ord, filt, sep, comp, parse_attributes attributes⟩ with
    | .ok m => .ok (m, [])
    | .error e => .error e
  | .error e, _, _, _, _, _, _ => .error e
  | _, .error e, _, _, _, _, _ => .error e
  | _, _, .error e, _, _, _, _ => .error e
  | _, _, _, .error e, _, _, _ => .error e
  | _, _, _, _, .error e, _, _ => .error e
  | _, _, _, _, _, .error e, _ => .error e
  | _, _, _, _, _, _, .error e => .error e

/-- `encode_chunk_key` (v2.py): coordinates rendered in decimal and
joined with the configured dimension separator; the empty join (the
zero-dimensional case) maps to `"0"`. -/
def joinSep (sep : String) : List String → String
  | [] => ""
  | [x] => x
  | x :: xs => x ++ sep ++ joinSep sep xs

def ArrayV2Metadata.encode_chunk_key (m : ArrayV2Metadata) (chunk_coords : List Nat) : String :=
  let chunk_identifier := joinSep m.dimension_separator (chunk_coords.map Nat.repr)
  if chunk_identifier = "" then "0" else chunk_identifier

/-- Modelled from the spec: the caller-supplied runtime array
configuration consumed by the chunk pipeline (external collaborator). -/
structure ArrayConfig where
  order : String

/-- Modelled from the spec: the buffer prototype consumed by the chunk
pipeline (external collaborator). -/
structure BufferPrototype where
  name : String

/-- Modelled from the spec: the per-chunk specification handed to the
external chunk pipeline (`zarr.core.array_spec`, not part of the
inspected slice): chunk shape, dtype, fill value, runtime configuration
and buffer prototype. -/
structure ArraySpec where
  shape : List Nat
  dtype : DTypeWrapper
  fill_value : Option PyValue
  config : ArrayConfig
  prototype : BufferPrototype

/-- `get_chunk_spec` (v2.py): builds the per-chunk `ArraySpec` from the
metadata's chunk shape, dtype and fill value; the chunk-coordinates
argument is unused by the v2 implementation. -/
def ArrayV2Metadata.get_chunk_spec (m : ArrayV2Metadata) (_chunk_coords : List Nat)
    (array_config : ArrayConfig) (prototype : BufferPrototype) : ArraySpec :=
  ⟨m.chunks, m.dtype, m.fill_value, array_config, prototype⟩

/-- `update_shape` (v2.py): `dataclasses.replace(self, shape=shape)`,
which re-invokes the validating constructor on the stored field values
with the shape replaced. -/
def ArrayV2Metadata.update_shape (m : ArrayV2Metadata) (shape : List Int) :
    Except ZErr (ArrayV2Metadata × List String) :=
  ArrayV2Metadata.mk' shape m.dtype (m.chunks.map Int.ofNat) m.fill_value m.order
    m.dimension_separator (m.compressor.map .codec) (m.filters.map (·.map .codec))
    (some m.attributes)

/-- `update_attributes` (v2.py): `dataclasses.replace(self,
attributes=attributes)`, which re-invokes the validating constructor on
the stored field values with the attributes replaced. -/
def ArrayV2Metadata.update_attributes (m : ArrayV2Metadata)
    (attributes : List (String × JsonValue)) :
    Except ZErr (ArrayV2Metadata × List String) :=
  ArrayV2Metadata.mk' (m.shape.map Int.ofNat) m.dtype (m.chunks.map Int.ofNat) m.fill_value
    m.order m.dimension_separator (m.compressor.map .codec) (m.filters.map (·.map .codec))
    (some attributes)

/-- Python `dict.pop(key)` with no default: removes the key, failing with
a `KeyError` when it is absent. -/
def dictPop (d : List (String × JsonValue)) (k : String) :
    Except ZErr (List (String × JsonValue)) :=
  match d.lookup k with
  | some _ => .ok (d.filter (fun p => p.1 != k))
  | none => .error (.keyError k)

/-- The compressor entry of `to_dict` (v2.py): a codec is replaced by its
configuration dict; when the configuration's `id` is `"zstd"` and its
`checksum` entry is falsy-or-absent, the code pops the `checksum` key
(`dict.pop` with no default, so an absent key raises `KeyError`). -/
def compressorEntry : Option Codec → Except ZErr JsonValue
  | none => .ok .null
  | some c =>
    let cfg := c.get_config
    if c.id = "zstd" ∧ ((cfg.lookup "checksum").getD (.bool false)).truthy = false then
      (dictPop cfg "checksum").map .obj
    else .ok (.obj cfg)

/-- The filters entry of `to_dict` (v2.py): each stored codec is replaced
by its configuration dict. -/
def filtersEntry : Option (List Codec) → JsonValue
  | none => .null
  | some fs => .arr (fs.map (fun c => .obj c.get_config))

/-- The fill-value entry of `to_dict` (v2.py): a present fill value is
replaced by `dtype.to_json_value(fill_value, zarr_format=2)`. -/
def fillValueEntry (m : ArrayV2Metadata) : Except ZErr JsonValue :=
  match m.fill_value with
  | none => .ok .null
  | some fv =>
    match to_json_value m.dtype fv 2 with
    | some j => .ok j
    | none => .error (.typeError "fill_value is not consistent with the dtype")

/-- The serialized document with the given fill-value and compressor
entries filled in: the literal field values of the base
`Metadata.to_dict` (modelled from the spec as the field mapping), with
the dtype replaced by its format-2 name and the filters by their
configuration dicts. -/
def zarrayDictWith (m : ArrayV2Metadata) (fill comp : JsonValue) :
    List (String × JsonValue) :=
  [("shape", .arr (m.shape.map (fun n => .int (n : Int)))),
   ("chunks", .arr (m.chunks.map (fun n => .int (n : Int)))),
   ("dtype", .str m.dtype.get_name_v2),
   ("fill_value", fill),
   ("order", .str m.order),
   ("filters", filtersEntry m.filters),
   ("dimension_separator", .str m.dimension_separator),
   ("compressor", comp),
   ("attributes", .obj m.attributes),
   ("zarr_format", .int 2)]

/-- `to_dict` (v2.py): the field mapping with the compressor replaced by
its (possibly checksum-stripped) configuration dict and the fill value
JSON-encoded through the dtype wrapper. -/
def ArrayV2Metadata.to_dict (m : ArrayV2Metadata) : Except ZErr (List (String × JsonValue)) :=
  match compressorEntry m.compressor, fillValueEntry m with
  | .ok comp, .ok fill => .ok (zarrayDictWith m fill comp)
  | .error e, _ => .error e
  | _, .error e => .error e

/-- Modelled from the spec: `np.dtype(string)` over the representative
format-2 descriptor strings used in this development. -/
def parseNpDtypeStr (s : String) : Except ZErr NpDtype :=
  match s with
  | "|b1" => .ok .bool
  | "|i1" => .ok .int8
  | "<i2" => .ok .int16
  | "<i4" => .ok .int32
  | "<i8" => .ok .int64
  | "|u1" => .ok .uint8
  | "<u2" => .ok .uint16
  | "<u4" => .ok .uint32
  | "<u8" => .ok .uint64
  | "<f2" => .ok .float16
  | "<f4" => .ok .float32
  | "<f8" => .ok .float64
  | "<c8" => .ok .complex64
  | "<c16" => .ok .complex128
  | "|S4" => .ok (.bytesS 4)
  | "|V4" => .ok (.void 4)
  | "<U4" => .ok (.unicode 4)
  | "|O" => .ok .object
  | "<M8[s]" => .ok (.datetime64 .s)
  | _ => .error (.valueError ("unrecognized dtype descriptor " ++ s))

/-- Modelled from the spec: the built-in wrapper factories the process
registers at start, one per supported kind. -/
def builtinFactories : List (String × DTypeFactory) :=
  [("bool", ⟨fun dt => match dt with | .bool => true | _ => false, fun _ => .bool⟩),
   ("int8", ⟨fun dt => match dt with | .int8 => true | _ => false, fun _ => .int8⟩),
   ("int16", ⟨fun dt => match dt with | .int16 => true | _ => false, fun _ => .int16⟩),
   ("int32", ⟨fun dt => match dt with | .int32 => true | _ => false, fun _ => .int32⟩),
   ("int64", ⟨fun dt => match dt with | .int64 => true | _ => false, fun _ => .int64⟩),
   ("uint8", ⟨fun dt => match dt with | .uint8 => true | _ => false, fun _ => .uint8⟩),
   ("uint16", ⟨fun dt => match dt with | .uint16 => true | _ => false, fun _ => .uint16⟩),
   ("uint32", ⟨fun dt => match dt with | .uint32 => true | _ => false, fun _ => .uint32⟩),
   ("uint64", ⟨fun dt => match dt with | .uint64 => true | _ => false, fun _ => .uint64⟩),
   ("float16", ⟨fun dt => match dt with | .float16 => true | _ => false, fun _ => .float16⟩),
   ("float32", ⟨fun dt => match dt with | .float32 => true | _ => false, fun _ => .float32⟩),
   ("float64", ⟨fun dt => match dt with | .float64 => true | _ => false, fun _ => .float64⟩),
   ("complex64",
    ⟨fun dt => match dt with | .complex64 => true | _ => false, fun _ => .complex64⟩),
   ("complex128",
    ⟨fun dt => match dt with | .complex128 => true | _ => false, fun _ => .complex128⟩),
   ("numpy.fixed_length_ascii",
    ⟨fun dt => match dt with | .bytesS _ => true | _ => false,
     fun dt => match dt with | .bytesS n => .fixedLengthAscii n | _ => .bool⟩),
   ("numpy.fixed_length_bytes",
    ⟨fun dt => match dt with | .void _ => true | _ => false,
     fun dt => match dt with | .void n => .fixedLengthBytes n | _ => .bool⟩),
   ("numpy.fixed_length_ucs4",
    ⟨fun dt => match dt with | .unicode _ => true | _ => false,
     fun dt => match dt with | .unicode n => .fixedLengthUnicode n | _ => .bool⟩),
   ("numpy.variable_length_utf8",
    ⟨fun dt => match dt with | .object => true | _ => false,
     fun _ => .variableLengthString⟩),
   ("numpy.datetime64",
    ⟨fun dt => match dt with | .datetime64 _ => true | _ => false,
     fun dt => match dt with | .datetime64 u => .datetime64 u | _ => .bool⟩)]

/-- Modelled from the spec: the process-wide registry populated from the
built-ins at start. -/
def data_type_registry : DataTypeRegistry := ⟨builtinFactories⟩

/-- Modelled from the spec: `get_data_type_from_numpy` resolves a stored
native-dtype descriptor through the registry. -/
def get_data_type_from_numpy (s : String) : Except ZErr DTypeWrapper :=
  match parseNpDtypeStr s with
  | .ok dt => data_type_registry.match_dtype dt
  | .error e => .error e

/-- The warning text emitted by `from_dict` for an empty stored filter
list. -/
def emptyFiltersWarning : String :=
  "Found an empty list of filters in the array metadata document. " ++
  "This is contrary to the Zarr V2 specification, and will cause an error in the future. " ++
  "Use None (or Null in a JSON document) instead of an empty list of filters."

/-- A decoded `.zarray` JSON document, with the keys `from_dict`
reads. -/
structure ZarrayDoc where
  zarr_format : Int
  shape : List Int
  chunks : List Int
  dtype : String
  fill_value : JsonValue
  order : String
  filters : Option (List (List (String × JsonValue)))
  compressor : Option (List (String × JsonValue))
  dimension_separator : Option String
  attributes : Option (List (String × JsonValue))

/-- The JSON-decoded Python value handed to the constructor as the fill
value on the non-bytes path of `from_dict` (`null` is Python `None`). -/
def jsonToPy : JsonValue → Except ZErr (Option PyValue)
  | .null => .ok none
  | .bool b => .ok (some (.bool b))
  | .int i => .ok (some (.int i))
  | .num q => .ok (some (.float (.finite q)))
  | .str s => .ok (some (.str s))
  | .arr _ => .error (.typeError "unsupported fill_value document")
  | .obj _ => .error (.typeError "unsupported fill_value document")

/-- `from_dict` (v2.py): checks the format marker, resolves the dtype
through the registry, base64-decodes a present fill value for `S`/`V`
kinds, normalizes an empty stored filter list to `None` with a warning,
and re-runs the validating constructor.  The second component collects
the warnings emitted. -/
def ArrayV2Metadata.from_dict (d : ZarrayDoc) :
    Except ZErr (ArrayV2Metadata × List String) :=
  match parse_zarr_format d.zarr_format with
  | .error e => .error e
  | .ok _ =>
  match get_data_type_from_numpy d.dtype with
  | .error e => .error e
  | .ok dtype =>
  match (if dtype.to_dtype.kind = 'S' ∨ dtype.to_dtype.kind = 'V' then
           match d.fill_value with
           | .null => .ok none
           | .str s =>
             match b64decode s.data with
             | some bs => .ok (some (PyValue.bytes bs))
             | none => .error (ZErr.valueError "Invalid base64-encoded string")
           | _ => .error (ZErr.typeError "argument should be a bytes-like object or ASCII string")
         else jsonToPy d.fill_value) with
  | .error e => .error e
  | .ok fill =>
  let filtersWarn :
      Option (List CodecOrDict) × List String :=
    match d.filters with
    | none => (none, [])
    | some fl =>
      if fl.length = 0 then (none, [emptyFiltersWarning])
      else (some (fl.map CodecOrDict.dict), [])
  match ArrayV2Metadata.mk' d.shape dtype d.chunks fill d.order
      (d.dimension_separator.getD ".") (d.compressor.map .dict) filtersWarn.1
      d.attributes with
  | .ok (m, ws) => .ok (m, filtersWarn.2 ++ ws)
  | .error e => .error e

/-! ### Base64 round-trip -/

theorem charIdx_idxChar {i : Nat} (h : i < 64) : charIdx (idxChar i) = some i := by
  have hall : ∀ j : Fin 64, charIdx (idxChar j.val) = some j.val := by decide
  exact hall ⟨i, h⟩

theorem idxChar_ne_pad {i : Nat} (h : i < 64) : idxChar i ≠ '=' := by
  have hall : ∀ j : Fin 64, idxChar j.val ≠ '=' := by decide
  exact hall ⟨i, h⟩

theorem b64_roundtrip (bs : List Nat) (h : ∀ b ∈ bs, b < 256) :
    b64decode (b64encode bs) = some bs := by
  induction bs using b64encode.induct with
  | case1 => rfl
  | case2 a =>
    have ha : a < 256 := h a (by simp)
    have e1 : charIdx (idxChar (a / 4)) = some (a / 4) := charIdx_idxChar (by omega)
    have e2 : charIdx (idxChar (a % 4 * 16)) = some (a % 4 * 16) := charIdx_idxChar (by omega)
    have h16 : a % 4 * 16 % 16 = 0 := by omega
    simp only [b64encode, b64decode]
    simp [e1, e2, h16]
    omega
  | case3 a b =>
    have ha : a < 256 := h a (by simp)
    have hb : b < 256 := h b (by simp)
    have e1 : charIdx (idxChar (a / 4)) = some (a / 4) := charIdx_idxChar (by omega)
    have e2 : charIdx (idxChar (a % 4 * 16 + b / 16)) = some (a % 4 * 16 + b / 16) :=
      charIdx_idxChar (by omega)
    have e3 : charIdx (idxChar (b % 16 * 4)) = some (b % 16 * 4) := charIdx_idxChar (by omega)
    have hne : idxChar (b % 16 * 4) ≠ '=' := idxChar_ne_pad (by omega)
    have h4 : b % 16 * 4 % 4 = 0 := by omega
    simp only [b64encode, b64decode]
    simp [e1, e2, e3, hne, h4]
    omega
  | case4 a b c rest ih =>
    have ha : a < 256 := h a (by simp)
    have hb : b < 256 := h b (by simp)
    have hc : c < 256 := h c (by simp)
    have hrest : ∀ x ∈ rest, x < 256 := fun x hx => h x (by simp [hx])
    have e1 : charIdx (idxChar (a / 4)) = some (a / 4) := charIdx_idxChar (by omega)
    have e2 : charIdx (idxChar (a % 4 * 16 + b / 16)) = some (a % 4 * 16 + b / 16) :=
      charIdx_idxChar (by omega)
    have e3 : charIdx (idxChar (b % 16 * 4 + c / 64)) = some (b % 16 * 4 + c / 64) :=
      charIdx_idxChar (by omega)
    have e4 : charIdx (idxChar (c % 64)) = some (c % 64) := charIdx_idxChar (by omega)
    have hne3 : idxChar (b % 16 * 4 + c / 64) ≠ '=' := idxChar_ne_pad (by omega)
    have hne4 : idxChar (c % 64) ≠ '=' := idxChar_ne_pad (by omega)
    simp only [b64encode, b64decode]
    simp [e1, e2, e3, e4, hne3, hne4, ih hrest]
    omega

/-! ### C1: scalar JSON encoding round-trip -/

theorem decodeFloat_encodeFloat (f : JFloat) : decodeFloat (encodeFloat f) = some f := by
  cases f <;> rfl

theorem sizeOf_snd_lt_of_mem {fs : List (String × DTypeWrapper)} {p : String × DTypeWrapper}
    (hp : p ∈ fs) : sizeOf p.2 < sizeOf fs := by
  induction fs with
  | nil => cases hp
  | cons q fs' ih =>
    rcases List.mem_cons.mp hp with rfl | hp'
    · obtain ⟨a, b⟩ := p
      simp
      omega
    · have := ih hp'
      simp
      omega

theorem to_json_fields_cons_eq {w : DTypeWrapper} {x : PyValue} {v : Nat} {j : JsonValue}
    {js : List JsonValue} (name : String) (fs' : List (String × DTypeWrapper))
    (xs' : List PyValue) (hj : to_json_value w x v = some j)
    (hjs : to_json_fields fs' xs' v = some js) :
    to_json_fields ((name, w) :: fs') (x :: xs') v = some (j :: js) := by
  simp only [to_json_fields, hj, hjs]

theorem from_json_fields_cons_eq {w : DTypeWrapper} {j : JsonValue} {v : Nat} {x : PyValue}
    {xs' : List PyValue} (name : String) (fs' : List (String × DTypeWrapper))
    (js : List JsonValue) (h1 : from_json_value w j v = some x)
    (h2 : from_json_fields fs' js v = some xs') :
    from_json_fields ((name, w) :: fs') (j :: js) v = some (x :: xs') := by
  simp only [from_json_fields, h1, h2]

/-- Round-trip of the scalar JSON encoding, proved by strong induction on
the size of the wrapper (the structured kind recurses into its
fields). -/
theorem to_from_json_value_aux :
    ∀ n : Nat, ∀ w : DTypeWrapper, sizeOf w ≤ n → ∀ (x : PyValue) (v : Nat),
    isValidScalar w x = true →
    (to_json_value w x v).bind (fun j => from_json_value w j v) = some x := by
  intro n
  induction n using Nat.strong_induction_on with
  | _ n ih =>
  intro w hw x v h
  cases w with
  | structured fields =>
    cases x <;> simp only [isValidScalar, Bool.false_eq_true] at h
    rename_i vals
    have hfld : ∀ (fs : List (String × DTypeWrapper)), (∀ p ∈ fs, sizeOf p.2 < n) →
        ∀ (xs : List PyValue), validFields fs xs = true →
        (to_json_fields fs xs v).bind (fun js => from_json_fields fs js v) = some xs := by
      intro fs
      induction fs with
      | nil =>
        intro _ xs hxs
        cases xs with
        | nil => rfl
        | cons a b => simp [validFields] at hxs
      | cons f fs' ihf =>
        intro hb xs hxs
        obtain ⟨name, w'⟩ := f
        cases xs with
        | nil => simp [validFields] at hxs
        | cons x' xs' =>
          simp only [validFields, Bool.and_eq_true] at hxs
          have hw' : sizeOf w' < n := hb (name, w') (by simp)
          have h1 := ih (sizeOf w') hw' w' le_rfl x' v hxs.1
          have h2 := ihf (fun p hp => hb p (by simp [hp])) xs' hxs.2
          cases hj : to_json_value w' x' v with
          | none => rw [hj] at h1; simp at h1
          | some j =>
            rw [hj] at h1
            simp only [Option.some_bind] at h1
            cases hjs : to_json_fields fs' xs' v with
            | none => rw [hjs] at h2; simp at h2
            | some js =>
              rw [hjs] at h2
              simp only [Option.some_bind] at h2
              rw [to_json_fields_cons_eq name fs' xs' hj hjs]
              show from_json_fields ((name, w') :: fs') (j :: js) v = some (x' :: xs')
              rw [from_json_fields_cons_eq name fs' js h1 h2]
    have hfree : ∀ p ∈ fields, sizeOf p.2 < n := by
      intro p hp
      have h1 := sizeOf_snd_lt_of_mem hp
      have h2 : sizeOf fields < sizeOf (DTypeWrapper.structured fields) := by
        simp
      omega
    have hf := hfld fields hfree vals h
    cases hjs : to_json_fields fields vals v with
    | none => rw [hjs] at hf; simp at hf
    | some js =>
      rw [hjs] at hf
      simp only [Option.some_bind] at hf
      have ht : to_json_value (.structured fields) (.record vals) v = some (.arr js) := by
        simp only [to_json_value, hjs]
        rfl
      rw [ht]
      show from_json_value (DTypeWrapper.structured fields) (JsonValue.arr js) v
          = some (PyValue.record vals)
      simp only [from_json_value, hf]
      rfl
  | fixedLengthAscii n' =>
    cases x <;> simp only [isValidScalar, Bool.false_eq_true, Bool.and_eq_true,
      List.all_eq_true, decide_eq_true_eq] at h
    rename_i bs
    show Option.map PyValue.bytes (b64decode (b64encode bs)) = some (PyValue.bytes bs)
    rw [b64_roundtrip bs h.2]
    rfl
  | fixedLengthBytes n' =>
    cases x <;> simp only [isValidScalar, Bool.false_eq_true, Bool.and_eq_true,
      List.all_eq_true, decide_eq_true_eq] at h
    rename_i bs
    show Option.map PyValue.npVoid (b64decode (b64encode bs)) = some (PyValue.npVoid bs)
    rw [b64_roundtrip bs h.2]
    rfl
  | datetime64 u =>
    cases x <;> simp only [isValidScalar, Bool.false_eq_true] at h
    rename_i d
    cases d <;> rfl
  | float16 =>
    cases x <;> simp only [isValidScalar, Bool.false_eq_true] at h
    rename_i f
    cases f <;> rfl
  | float32 =>
    cases x <;> simp only [isValidScalar, Bool.false_eq_true] at h
    rename_i f
    cases f <;> rfl
  | float64 =>
    cases x <;> simp only [isValidScalar, Bool.false_eq_true] at h
    rename_i f
    cases f <;> rfl
  | complex64 =>
    cases x <;> simp only [isValidScalar, Bool.false_eq_true] at h
    rename_i re im
    cases re <;> cases im <;> rfl
  | complex128 =>
    cases x <;> simp only [isValidScalar, Bool.false_eq_true] at h
    rename_i re im
    cases re <;> cases im <;> rfl
  | _ =>
    cases x <;> simp only [isValidScalar, Bool.false_eq_true] at h <;> rfl

/-! ### Claim C1 -/

/-- C1: for every supported type wrapper `w`, every representative scalar
`x` of `w`'s native type, and each format version `v ∈ {2, 3}`,
`from_json_value (to_json_value x v) v = x` — including the
base64-encoded fixed-length bytes kinds, the two-element `[real, imag]`
complex encoding, and the integer epoch-offset timestamp encoding. -/
theorem claim_c1_json_value_roundtrip (w : DTypeWrapper) (x : PyValue) (v : Nat)
    (hv : v = 2 ∨ v = 3) (hx : isValidScalar w x = true) :
    (to_json_value w x v).bind (fun j => from_json_value w j v) = some x :=
  to_from_json_value_aux (sizeOf w) w le_rfl x v hx

/-- Witness for C1 at the fixed-length bytes kind: the raw bytes of
`"test"` round-trip through their base64 JSON form in format 2. -/
theorem claim_c1_json_value_roundtrip_witness :
    ((2 : Nat) = 2 ∨ (2 : Nat) = 3) ∧
    isValidScalar (.fixedLengthAscii 4) (.bytes [116, 101, 115, 116]) = true ∧
    (to_json_value (.fixedLengthAscii 4) (.bytes [116, 101, 115, 116]) 2).bind
        (fun j => from_json_value (.fixedLengthAscii 4) j 2)
      = some (.bytes [116, 101, 115, 116]) :=
  ⟨Or.inl rfl, by decide,
   claim_c1_json_value_roundtrip (.fixedLengthAscii 4) (.bytes [116, 101, 115, 116]) 2
     (Or.inl rfl) (by decide)⟩

/-! ### Claim C8 -/

theorem toDigitsCore_length_ge (b fuel n : Nat) (ds : List Char) :
    ds.length ≤ (Nat.toDigitsCore b fuel n ds).length := by
  induction fuel generalizing n ds with
  | zero => simp [Nat.toDigitsCore]
  | succ f ih =>
    simp only [Nat.toDigitsCore]
    split
    · simp
    · exact le_trans (by simp) (ih _ _)

theorem repr_ne_empty (n : Nat) : Nat.repr n ≠ "" := by
  intro hc
  have hlen : 1 ≤ (Nat.toDigits 10 n).length := by
    simp only [Nat.toDigits, Nat.toDigitsCore]
    split
    · simp
    · exact le_trans (by simp) (toDigitsCore_length_ge 10 n (n / 10) _)
  have hdata : Nat.toDigits 10 n = [] := congrArg String.data hc
  rw [hdata] at hlen
  simp at hlen

theorem joinSep_repr_ne_empty (sep : String) (c : Nat) (cs : List Nat) :
    joinSep sep ((c :: cs).map Nat.repr) ≠ "" := by
  cases cs with
  | nil => simpa [joinSep] using repr_ne_empty c
  | cons c' cs' =>
    simp only [List.map, joinSep]
    intro hc
    have hl := congrArg String.length hc
    simp only [String.length_append] at hl
    have h1 : (Nat.repr c).length ≠ 0 := by
      intro h0
      apply repr_ne_empty c
      have : (Nat.repr c).data.length = 0 := h0
      have hdat : (Nat.repr c).data = [] := List.length_eq_zero.mp this
      cases hr : Nat.repr c with
      | mk l => rw [hr] at hdat; simp at hdat; simp [hdat]
    have hz : String.length "" = 0 := rfl
    rw [hz] at hl
    omega

/-- C8: `encode_chunk_key` returns the decimal forms of the coordinates
joined by the configured dimension separator, and exactly `"0"` for the
empty (zero-dimensional) coordinate tuple. -/
theorem claim_c8_encode_chunk_key (m : ArrayV2Metadata) (coords : List Nat) :
    m.encode_chunk_key coords =
      if coords = [] then "0"
      else joinSep m.dimension_separator (coords.map Nat.repr) := by
  cases coords with
  | nil => rfl
  | cons c cs =>
    simp only [ArrayV2Metadata.encode_chunk_key]
    rw [if_neg (joinSep_repr_ne_empty m.dimension_separator c cs)]
    simp

/-! ### Claim C10 -/

/-- C10: the per-chunk specification produced by `get_chunk_spec` is
completely independent of the chunk-coordinates argument. -/
theorem claim_c10_chunk_spec_coord_independent (m : ArrayV2Metadata) (c1 c2 : List Nat)
    (cfg : ArrayConfig) (p : BufferPrototype) :
    m.get_chunk_spec c1 cfg p = m.get_chunk_spec c2 cfg p := rfl

/-! ### Claims C3 and C4: registry -/

/-- C3: after `register(name, factory)`, `get(name)` returns that factory;
registering a second factory under the same name makes `get` and
subsequent matching resolve to the new factory (last write wins, no
error), provided no other registered entry structurally matches the same
native type. -/
theorem claim_c3_register_get_override (r : DataTypeRegistry) (n : String)
    (f g : DTypeFactory) :
    ((r.register n f).get n = .ok f) ∧
    (((r.register n f).register n g).get n = .ok g) ∧
    (∀ dt : NpDtype, g.matchesDtype dt = true →
      ((r.register n f).register n g).match_dtype dt = .ok (g.build dt)) := by
  refine ⟨?_, ?_, ?_⟩
  · simp [DataTypeRegistry.get, DataTypeRegistry.register, List.find?_cons]
  · simp [DataTypeRegistry.get, DataTypeRegistry.register, List.find?_cons]
  · intro dt hg
    simp [DataTypeRegistry.match_dtype, DataTypeRegistry.register, List.find?_cons, hg]

/-- Witness for C3 on a fresh registry with two boolean factories. -/
theorem claim_c3_register_get_override_witness :
    ((DataTypeRegistry.mk []).register "bool"
        ⟨fun dt => match dt with | .bool => true | _ => false, fun _ => .bool⟩).get "bool"
      = .ok ⟨fun dt => match dt with | .bool => true | _ => false, fun _ => .bool⟩ ∧
    (((DataTypeRegistry.mk []).register "bool"
        ⟨fun dt => match dt with | .bool => true | _ => false, fun _ => .bool⟩).register "bool"
        ⟨fun _ => true, fun _ => .bool⟩).get "bool" = .ok ⟨fun _ => true, fun _ => .bool⟩ ∧
    (((DataTypeRegistry.mk []).register "bool"
        ⟨fun dt => match dt with | .bool => true | _ => false, fun _ => .bool⟩).register "bool"
        ⟨fun _ => true, fun _ => .bool⟩).match_dtype .bool
      = .ok ((⟨fun _ => true, fun _ => .bool⟩ : DTypeFactory).build .bool) := by
  have h := claim_c3_register_get_override ⟨[]⟩ "bool"
    ⟨fun dt => match dt with | .bool => true | _ => false, fun _ => .bool⟩
    ⟨fun _ => true, fun _ => .bool⟩
  exact ⟨h.1, h.2.1, h.2.2 .bool rfl⟩

/-- C4: when no registered factory structurally matches a native type,
`match_dtype` fails with a no-match error naming that exact native type
(never a silent default), and `get` on an absent name fails with a
not-found (`KeyError`) error. -/
theorem claim_c4_no_match_errors (r : DataTypeRegistry) (dt : NpDtype) (n : String)
    (hm : ∀ p ∈ r.contents, p.2.matchesDtype dt = false)
    (hn : ∀ p ∈ r.contents, p.1 ≠ n) :
    r.match_dtype dt = .error (.valueError
      ("No data type wrapper found that matches dtype '" ++ dt.name ++ "'")) ∧
    r.get n = .error (.keyError n) := by
  constructor
  · have hfind : r.contents.find? (fun p => p.2.matchesDtype dt) = none := by
      rw [List.find?_eq_none]
      intro p hp
      simp [hm p hp]
    simp [DataTypeRegistry.match_dtype, hfind]
  · have hfind : r.contents.find? (fun p => p.1 == n) = none := by
      rw [List.find?_eq_none]
      intro p hp
      simp [hn p hp]
    simp [DataTypeRegistry.get, hfind]

/-- Witness for C4 on the empty registry with the `int8` native type. -/
theorem claim_c4_no_match_errors_witness :
    (DataTypeRegistry.mk []).match_dtype .int8 = .error (.valueError
      ("No data type wrapper found that matches dtype '" ++ NpDtype.name .int8 ++ "'")) ∧
    (DataTypeRegistry.mk []).get "int8" = .error (.keyError "int8") :=
  claim_c4_no_match_errors ⟨[]⟩ .int8 "int8" (by simp) (by simp)

/-! ### Claim C2: shape/chunks length invariant -/

theorem parse_metadata_ok {d m : ArrayV2Metadata} (h : parse_metadata d = .ok m) :
    m = d ∧ d.chunks.length = d.shape.length := by
  unfold parse_metadata at h
  split at h
  · cases h
  · rename_i hne
    cases h
    exact ⟨rfl, by omega⟩

theorem parse_shapelike_length {l : List Int} {l' : List Nat}
    (h : parse_shapelike l = .ok l') : l'.length = l.length := by
  unfold parse_shapelike at h
  split at h
  · cases h
    simp
  · cases h

/-- A successful construction preserves the input shape/chunks lengths
and satisfies the length invariant. -/
theorem mk'_ok_lengths {shape : List Int} {dtype : DTypeWrapper} {chunks : List Int}
    {fill : Option PyValue} {order sep : String} {comp : Option CodecOrDict}
    {filt : Option (List CodecOrDict)} {attrs : Option (List (String × JsonValue))}
    {m : ArrayV2Metadata} {ws : List String}
    (h : ArrayV2Metadata.mk' shape dtype chunks fill order sep comp filt attrs = .ok (m, ws)) :
    m.shape.length = shape.length ∧ m.chunks.length = chunks.length ∧
    m.shape.length = m.chunks.length := by
  unfold ArrayV2Metadata.mk' at h
  split at h
  case _ sp cp comp' ord sep' filt' fv h1 h2 h3 h4 h5 h6 h7 =>
    split at h
    case _ m' hpm =>
      cases h
      obtain ⟨hm, hlen⟩ := parse_metadata_ok hpm
      subst hm
      refine ⟨?_, ?_, ?_⟩
      · exact parse_shapelike_length h1
      · exact parse_shapelike_length h2
      · simpa using hlen.symm
    case _ e hpm => cases h
  all_goals cases h

/-- C2: every `ArrayV2Metadata` that the validating constructor produces
satisfies `len(shape) == len(chunks)`; construction with shape and
chunk-shape inputs of unequal length always fails, and when every other
input parses, it fails precisely with the shape-mismatch error. -/
theorem claim_c2_shape_chunks_invariant :
    (∀ (shape chunks : List Int) (dtype : DTypeWrapper) (fill : Option PyValue)
       (order sep : String) (comp : Option CodecOrDict) (filt : Option (List CodecOrDict))
       (attrs : Option (List (String × JsonValue))),
       shape.length ≠ chunks.length →
       ∀ m ws, ArrayV2Metadata.mk' shape dtype chunks fill order sep comp filt attrs
         ≠ .ok (m, ws)) ∧
    (∀ (shape chunks : List Int) (dtype : DTypeWrapper) (fill : Option PyValue)
       (order sep : String) (comp : Option CodecOrDict) (filt : Option (List CodecOrDict))
       (attrs : Option (List (String × JsonValue)))
       (sp cp : List Nat) (c : Option Codec) (o s2 : String) (fl : Option (List Codec))
       (fv : Option PyValue),
       parse_shapelike shape = .ok sp → parse_shapelike chunks = .ok cp →
       parse_compressor comp = .ok c → parse_indexing_order order = .ok o →
       parse_separator sep = .ok s2 → parse_filters filt = .ok fl →
       parse_fill_value fill dtype.to_dtype = .ok fv →
       shape.length ≠ chunks.length →
       ArrayV2Metadata.mk' shape dtype chunks fill order sep comp filt attrs
         = .error (.shapeMismatch cp.length sp.length)) ∧
    (∀ (shape chunks : List Int) (dtype : DTypeWrapper) (fill : Option PyValue)
       (order sep : String) (comp : Option CodecOrDict) (filt : Option (List CodecOrDict))
       (attrs : Option (List (String × JsonValue))) (m : ArrayV2Metadata) (ws : List String),
       ArrayV2Metadata.mk' shape dtype chunks fill order sep comp filt attrs = .ok (m, ws) →
       m.shape.length = m.chunks.length) := by
  refine ⟨?_, ?_, ?_⟩
  · intro shape chunks dtype fill order sep comp filt attrs hne m ws hok
    obtain ⟨h1, h2, h3⟩ := mk'_ok_lengths hok
    omega
  · intro shape chunks dtype fill order sep comp filt attrs sp cp c o s2 fl fv
      h1 h2 h3 h4 h5 h6 h7 hne
    have hsp := parse_shapelike_length h1
    have hcp := parse_shapelike_length h2
    unfold ArrayV2Metadata.mk'
    rw [h1, h2, h3, h4, h5, h6, h7]
    dsimp only
    unfold parse_metadata
    dsimp only
    rw [if_pos (show cp.length ≠ sp.length by omega)]
  · intro shape chunks dtype fill order sep comp filt attrs m ws hok
    exact (mk'_ok_lengths hok).2.2

/-! ### Claim C5: fill-value parsing dispatch -/

/-- Counterexample to C5 as stated: for the unicode dtype, the integer
fill value `0` — which is not a string — does not fail with a fill-value
error; the zero special case fires first and yields the empty-string zero
scalar. -/
theorem claim_c5_counterexample :
    parse_fill_value (some (.int 0)) (.unicode 4) = .ok (some (.str "")) ∧
    PyValue.isStr (.int 0) = false := ⟨rfl, rfl⟩

/-- C5 (amended): fill-value parsing dispatches on the dtype — an absent
(`None`) fill value stays absent and an object dtype passes the value
through unparsed; a non-void value comparing equal to zero collapses to
the dtype's canonical zero scalar before any kind dispatch; after that,
text (unicode) kinds reject every non-string input with a fill-value
error; `V` kinds reinterpret raw bytes structurally; any other value is
cast into the target dtype, a failed cast raising a fill-value error. -/
theorem claim_c5_fill_value_dispatch :
    (∀ dt : NpDtype, parse_fill_value none dt = .ok none) ∧
    (∀ (v : PyValue) (dt : NpDtype), dt.hasobject = true →
       parse_fill_value (some v) dt = .ok (some v)) ∧
    (∀ (v : PyValue) (dt : NpDtype), dt.hasobject = false → v.isVoid = false →
       v.eqZero = true → parse_fill_value (some v) dt = .ok (some (zeroScalar dt))) ∧
    (∀ (v : PyValue) (dt : NpDtype), dt.hasobject = false →
       (v.isVoid = true ∨ v.eqZero = false) → dt.kind = 'U' → v.isStr = false →
       parse_fill_value (some v) dt = .error (.fillValueError
         ("fill_value is not valid for dtype " ++ dt.name ++ "; must be a unicode string"))) ∧
    (∀ (bs : List Nat) (n : Nat), bs.length = n →
       parse_fill_value (some (.bytes bs)) (.void n) = .ok (some (.npVoid bs))) ∧
    (∀ (v : PyValue) (dt : NpDtype), dt.hasobject = false →
       (v.isVoid = true ∨ v.eqZero = false) → dt.kind ≠ 'U' →
       ¬(v.isBytes = true ∧ dt.kind = 'V') → castTo v dt = none →
       parse_fill_value (some v) dt = .error (.fillValueError
         ("Fill_value is not valid for dtype " ++ dt.name ++ "."))) := by
  refine ⟨fun dt => rfl, ?_, ?_, ?_, ?_, ?_⟩
  · intro v dt h
    simp [parse_fill_value, h]
  · intro v dt h1 h2 h3
    simp [parse_fill_value, h1, h2, h3]
  · intro v dt h1 h2 h3 h4
    rcases h2 with h2 | h2 <;> simp [parse_fill_value, h1, h2, h3, h4]
  · intro bs n hlen
    simp [parse_fill_value, viewAsVoid, PyValue.isBytes, NpDtype.kind, hlen,
      PyValue.eqZero, NpDtype.hasobject]
  · intro v dt h1 h2 h3 h4 h5
    rcases h2 with h2 | h2 <;> simp [parse_fill_value, h1, h2, h3, h4, h5]

/-- Witness for the amended C5, one concrete input per dispatch arm. -/
theorem claim_c5_fill_value_dispatch_witness :
    parse_fill_value none .int32 = .ok none ∧
    parse_fill_value (some (.int 5)) .object = .ok (some (.int 5)) ∧
    parse_fill_value (some (.int 0)) .int32 = .ok (some (.int 0)) ∧
    parse_fill_value (some (.int 5)) (.unicode 4) = .error (.fillValueError
      ("fill_value is not valid for dtype " ++ NpDtype.name (.unicode 4) ++
       "; must be a unicode string")) ∧
    parse_fill_value (some (.bytes [1, 2, 3, 4])) (.void 4) = .ok (some (.npVoid [1, 2, 3, 4])) ∧
    parse_fill_value (some (.str "x")) .int32 = .error (.fillValueError
      ("Fill_value is not valid for dtype " ++ NpDtype.name .int32 ++ ".")) :=
  ⟨claim_c5_fill_value_dispatch.1 .int32,
   claim_c5_fill_value_dispatch.2.1 (.int 5) .object rfl,
   claim_c5_fill_value_dispatch.2.2.1 (.int 0) .int32 rfl rfl rfl,
   claim_c5_fill_value_dispatch.2.2.2.1 (.int 5) (.unicode 4) rfl (Or.inr rfl) rfl rfl,
   claim_c5_fill_value_dispatch.2.2.2.2.1 [1, 2, 3, 4] 4 rfl,
   claim_c5_fill_value_dispatch.2.2.2.2.2 (.str "x") .int32 rfl (Or.inr rfl) (by decide)
     (by decide) rfl⟩

/-! ### Claim C6: empty filter list -/

/-- Inversion of a successful construction: the warnings are empty and
the object's fields are exactly the parsed inputs. -/
theorem mk'_ok_inv {shape : List Int} {dtype : DTypeWrapper} {chunks : List Int}
    {fill : Option PyValue} {order sep : String} {comp : Option CodecOrDict}
    {filt : Option (List CodecOrDict)} {attrs : Option (List (String × JsonValue))}
    {m : ArrayV2Metadata} {ws : List String}
    (h : ArrayV2Metadata.mk' shape dtype chunks fill order sep comp filt attrs = .ok (m, ws)) :
    ws = [] ∧ ∃ sp cp c o s2 fl fv,
      parse_shapelike shape = .ok sp ∧ parse_shapelike chunks = .ok cp ∧
      parse_compressor comp = .ok c ∧ parse_indexing_order order = .ok o ∧
      parse_separator sep = .ok s2 ∧ parse_filters filt = .ok fl ∧
      parse_fill_value fill dtype.to_dtype = .ok fv ∧
      m = ⟨sp, cp, dtype, fv, o, fl, s2, c, parse_attributes attrs⟩ := by
  unfold ArrayV2Metadata.mk' at h
  split at h
  case _ sp cp c o s2 fl fv h1 h2 h3 h4 h5 h6 h7 =>
    split at h
    case _ m' hpm =>
      cases h
      obtain ⟨hm, _⟩ := parse_metadata_ok hpm
      subst hm
      exact ⟨rfl, sp, cp, c, o, s2, fl, fv, h1, h2, h3, h4, h5, h6, h7, rfl⟩
    case _ e hpm => cases h
  all_goals cases h

/-- Counterexample to C6 as stated: a direct (constructor) construction
with an empty filter list succeeds, stores `filters = None`, and emits no
diagnostic at all — the warning is only raised on the `from_dict`
path. -/
theorem claim_c6_counterexample :
    ArrayV2Metadata.mk' [4] .int32 [2] (some (.int 0)) "C" "." none (some []) none
      = .ok (⟨[4], [2], .int32, some (.int 0), "C", none, ".", none, []⟩, []) := rfl

/-- C6 (amended): an empty filter list is always normalized to a stored
`filters == None`; the non-fatal diagnostic, however, is emitted only by
the `from_dict` deserialization path — a direct constructor call with an
empty filter list emits no warning. -/
theorem claim_c6_empty_filters :
    (∀ (shape chunks : List Int) (dtype : DTypeWrapper) (fill : Option PyValue)
       (order sep : String) (comp : Option CodecOrDict)
       (attrs : Option (List (String × JsonValue))) (m : ArrayV2Metadata) (ws : List String),
       ArrayV2Metadata.mk' shape dtype chunks fill order sep comp (some []) attrs
         = .ok (m, ws) →
       m.filters = none ∧ ws = []) ∧
    (∀ (d : ZarrayDoc), d.filters = some [] →
       ∀ (m : ArrayV2Metadata) (ws : List String),
       ArrayV2Metadata.from_dict d = .ok (m, ws) →
       m.filters = none ∧ emptyFiltersWarning ∈ ws) := by
  constructor
  · intro shape chunks dtype fill order sep comp attrs m ws h
    obtain ⟨hws, sp, cp, c, o, s2, fl, fv, h1, h2, h3, h4, h5, h6, h7, hm⟩ := mk'_ok_inv h
    have hfl : fl = none := by
      have : parse_filters (some ([] : List CodecOrDict)) = .ok none := rfl
      rw [this] at h6
      cases h6
      rfl
    subst hm
    exact ⟨by simp [hfl], hws⟩
  · intro d hdf m ws h
    unfold ArrayV2Metadata.from_dict at h
    rw [hdf] at h
    split at h
    case _ e hzf => cases h
    case _ hzf =>
    split at h
    case _ e hdt => cases h
    case _ dtype hdt =>
    split at h
    case _ e hfv => cases h
    case _ fill hfv =>
    simp only [List.length_nil, reduceIte] at h
    split at h
    case _ m' ws' hmk =>
      cases h
      obtain ⟨hws, sp, cp, c, o, s2, fl, fv, h1, h2, h3, h4, h5, h6, h7, hm⟩ := mk'_ok_inv hmk
      have hfl : fl = none := by
        have : parse_filters (none : Option (List CodecOrDict)) = .ok none := rfl
        rw [this] at h6
        cases h6
        rfl
      subst hm
      subst hws
      exact ⟨by simp [hfl], by simp⟩
    case _ e hmk => cases h

/-- Witness for the amended C6: a concrete constructor call and a
concrete document deserialization, both with an empty filter list. -/
theorem claim_c6_empty_filters_witness :
    ((⟨[4], [2], .int32, some (.int 0), "C", none, ".", none, []⟩ :
        ArrayV2Metadata).filters = none ∧ ([] : List String) = []) ∧
    ((⟨[4], [2], .int32, some (.int 0), "C", none, ".", none, []⟩ :
        ArrayV2Metadata).filters = none ∧
      emptyFiltersWarning ∈ [emptyFiltersWarning]) := by
  constructor
  · exact claim_c6_empty_filters.1 [4] [2] .int32 (some (.int 0)) "C" "." none none
      _ _ rfl
  · exact claim_c6_empty_filters.2
      ⟨2, [4], [2], "<i4", .int 0, "C", some [], none, none, none⟩ rfl _ _ rfl

/-! ### Claim C7: to_dict compressor entry -/

/-- Counterexample to C7 as stated: a metadata object whose zstd
compressor configuration has no `checksum` key at all does not serialize
to a dict omitting the key — `to_dict` fails with a `KeyError`, because
the code pops the key with no default. -/
theorem claim_c7_counterexample :
    ArrayV2Metadata.mk' [2] .int32 [2] none "C" "."
        (some (.codec ⟨"zstd", [("level", .int 0)]⟩)) none none
      = .ok (⟨[2], [2], .int32, none, "C", none, ".",
          some ⟨"zstd", [("level", .int 0)]⟩, []⟩, []) ∧
    (⟨[2], [2], .int32, none, "C", none, ".",
        some ⟨"zstd", [("level", .int 0)]⟩, []⟩ :
      ArrayV2Metadata).to_dict = .error (.keyError "checksum") := ⟨rfl, rfl⟩

/-- C7 (amended): `to_dict` replaces the compressor by its configuration
dict; when the configuration has id `"zstd"` and a falsy `checksum`
entry, that key is removed; when the configuration has id `"zstd"` and
no `checksum` key, serialization fails with a `KeyError` (the pop has no
default); every other compressor configuration keeps all its keys. -/
theorem claim_c7_to_dict_compressor :
    (∀ (m : ArrayV2Metadata) (c : Codec), m.compressor = some c → c.id = "zstd" →
       c.params.lookup "checksum" = none →
       m.to_dict = .error (.keyError "checksum")) ∧
    (∀ (m : ArrayV2Metadata) (c : Codec) (v : JsonValue) (fill : JsonValue),
       m.compressor = some c → c.id = "zstd" →
       c.params.lookup "checksum" = some v → v.truthy = false →
       fillValueEntry m = .ok fill →
       m.to_dict = .ok (zarrayDictWith m fill
         (.obj (("id", .str "zstd") :: c.params.filter (fun p => p.1 != "checksum"))))) ∧
    (∀ (m : ArrayV2Metadata) (c : Codec) (fill : JsonValue),
       m.compressor = some c →
       (¬c.id = "zstd" ∨ ∃ v, c.params.lookup "checksum" = some v ∧ v.truthy = true) →
       fillValueEntry m = .ok fill →
       m.to_dict = .ok (zarrayDictWith m fill (.obj c.get_config))) := by
  refine ⟨?_, ?_, ?_⟩
  · intro m c hc hid hck
    have hcfg : (c.get_config).lookup "checksum" = none := by
      have h0 : (c.get_config).lookup "checksum" = c.params.lookup "checksum" := rfl
      rw [h0, hck]
    have hce : compressorEntry (some c) = .error (.keyError "checksum") := by
      simp [compressorEntry, hid, hcfg, dictPop, JsonValue.truthy, Except.map]
    unfold ArrayV2Metadata.to_dict
    rw [hc, hce]
    cases hf : fillValueEntry m <;> rfl
  · intro m c v fill hc hid hck hv hf
    have hcfg : (c.get_config).lookup "checksum" = some v := by
      have h0 : (c.get_config).lookup "checksum" = c.params.lookup "checksum" := rfl
      rw [h0, hck]
    have hpop : dictPop c.get_config "checksum"
        = .ok (("id", .str c.id) :: c.params.filter (fun p => p.1 != "checksum")) := by
      have h0 : c.get_config.filter (fun p => p.1 != "checksum")
          = ("id", .str c.id) :: c.params.filter (fun p => p.1 != "checksum") := rfl
      simp [dictPop, hcfg, h0]
    have hce : compressorEntry (some c) = .ok (.obj
        (("id", .str "zstd") :: c.params.filter (fun p => p.1 != "checksum"))) := by
      simp [compressorEntry, hid, hcfg, hv, hpop, Except.map]
    unfold ArrayV2Metadata.to_dict
    rw [hc, hce, hf]
  · intro m c fill hc hd hf
    have hce : compressorEntry (some c) = .ok (.obj c.get_config) := by
      rcases hd with hd | ⟨v, hv1, hv2⟩
      · simp [compressorEntry, hd]
      · have hcfg : (c.get_config).lookup "checksum" = some v := by
          have h0 : (c.get_config).lookup "checksum" = c.params.lookup "checksum" := rfl
          rw [h0, hv1]
        simp [compressorEntry, hcfg, hv2]
    unfold ArrayV2Metadata.to_dict
    rw [hc, hce, hf]

/-- Witness for the amended C7: a zstd compressor with a false checksum
loses the key, a zstd compressor without the key fails with `KeyError`,
and a gzip compressor keeps all keys. -/
theorem claim_c7_to_dict_compressor_witness :
    (⟨[2], [2], .int32, none, "C", none, ".",
        some ⟨"zstd", [("level", .int 0)]⟩, []⟩ :
      ArrayV2Metadata).to_dict = .error (.keyError "checksum") ∧
    (⟨[2], [2], .int32, none, "C", none, ".",
        some ⟨"zstd", [("level", .int 0), ("checksum", .bool false)]⟩, []⟩ :
      ArrayV2Metadata).to_dict
      = .ok (zarrayDictWith
          ⟨[2], [2], .int32, none, "C", none, ".",
            some ⟨"zstd", [("level", .int 0), ("checksum", .bool false)]⟩, []⟩
          .null (.obj [("id", .str "zstd"), ("level", .int 0)])) ∧
    (⟨[2], [2], .int32, none, "C", none, ".",
        some ⟨"gzip", [("level", .int 1)]⟩, []⟩ :
      ArrayV2Metadata).to_dict
      = .ok (zarrayDictWith
          ⟨[2], [2], .int32, none, "C", none, ".", some ⟨"gzip", [("level", .int 1)]⟩, []⟩
          .null (.obj [("id", .str "gzip"), ("level", .int 1)])) :=
  ⟨claim_c7_to_dict_compressor.1 _ ⟨"zstd", [("level", .int 0)]⟩ rfl rfl rfl,
   claim_c7_to_dict_compressor.2.1 _ ⟨"zstd", [("level", .int 0), ("checksum", .bool false)]⟩
     (.bool false) .null rfl rfl rfl rfl rfl,
   claim_c7_to_dict_compressor.2.2 _ ⟨"gzip", [("level", .int 1)]⟩ .null rfl
     (Or.inl (by decide)) rfl⟩

/-- Witness for C2: a concrete construction with a 2-dimensional shape
and a 1-dimensional chunk shape fails with the shape-mismatch error. -/
theorem claim_c2_shape_chunks_invariant_witness :
    ArrayV2Metadata.mk' [10, 10] .int32 [5] (some (.int 0)) "C" "." none none none
      = .error (.shapeMismatch 1 2) :=
  claim_c2_shape_chunks_invariant.2.1 [10, 10] [5] .int32 (some (.int 0)) "C" "."
    none none none [10, 10] [5] none "C" "." none (some (.int 0))
    rfl rfl rfl rfl rfl rfl rfl (by decide)

/-! ### Claim C9: update_shape / update_attributes -/

theorem parse_shapelike_ofNat (l : List Nat) : parse_shapelike (l.map Int.ofNat) = .ok l := by
  unfold parse_shapelike
  rw [if_pos]
  · congr 1
    rw [List.map_map]
    exact List.map_id'' (fun n => Int.toNat_ofNat n) l
  · simp [List.all_eq_true]

theorem parse_compressor_codec (c : Option Codec) :
    parse_compressor (c.map CodecOrDict.codec) = .ok c := by
  cases c <;> rfl

/-- The stored fields of a metadata object re-parse to themselves when
fed back to the constructor (what `dataclasses.replace` does).  The
order, separator, filters and fill value components are recorded as
re-parse equations; compressor and shape/chunks re-parse
unconditionally. -/
def Reparses (m : ArrayV2Metadata) : Prop :=
  parse_indexing_order m.order = .ok m.order ∧
  parse_separator m.dimension_separator = .ok m.dimension_separator ∧
  parse_filters (m.filters.map (·.map CodecOrDict.codec)) = .ok m.filters ∧
  parse_fill_value m.fill_value m.dtype.to_dtype = .ok m.fill_value ∧
  m.shape.length = m.chunks.length

/-- Counterexample to C9 as stated: `update_shape` does not
unconditionally return a field-replaced copy — on a shape of the wrong
length it re-runs the constructor's validation and fails with the
shape-mismatch error. -/
theorem claim_c9_counterexample :
    (⟨[6, 6], [3, 3], .int32, some (.int 0), "C", none, ".", none, []⟩ :
        ArrayV2Metadata).update_shape [5] = .error (.shapeMismatch 2 1) := rfl

/-- C9 (amended): `update_shape` and `update_attributes` re-invoke the
validating constructor on the stored fields (`dataclasses.replace`
semantics); when the stored fields re-parse to themselves and the new
shape passes validation, the result is exactly the copy with only that
one field replaced and no warning. -/
theorem claim_c9_update_refines :
    (∀ (m : ArrayV2Metadata), Reparses m →
       ∀ (s : List Int) (s' : List Nat), parse_shapelike s = .ok s' →
       s'.length = m.chunks.length →
       m.update_shape s = .ok ({ m with shape := s' }, [])) ∧
    (∀ (m : ArrayV2Metadata), Reparses m →
       ∀ a : List (String × JsonValue),
       m.update_attributes a = .ok ({ m with attributes := a }, [])) := by
  constructor
  · intro m hm s s' hs hlen
    obtain ⟨ho, hsep, hfl, hfv, _⟩ := hm
    unfold ArrayV2Metadata.update_shape ArrayV2Metadata.mk'
    rw [hs, parse_shapelike_ofNat m.chunks, parse_compressor_codec m.compressor,
      ho, hsep, hfl, hfv]
    dsimp only
    unfold parse_metadata
    dsimp only
    rw [if_neg (show ¬m.chunks.length ≠ s'.length by omega)]
    obtain ⟨sh, ch, dt, fv, o, fl, ds, co, at'⟩ := m
    rfl
  · intro m hm a
    obtain ⟨ho, hsep, hfl, hfv, hlen⟩ := hm
    unfold ArrayV2Metadata.update_attributes ArrayV2Metadata.mk'
    rw [parse_shapelike_ofNat m.shape, parse_shapelike_ofNat m.chunks,
      parse_compressor_codec m.compressor, ho, hsep, hfl, hfv]
    dsimp only
    unfold parse_metadata
    dsimp only
    rw [if_neg (show ¬m.chunks.length ≠ m.shape.length by omega)]
    obtain ⟨sh, ch, dt, fv, o, fl, ds, co, at'⟩ := m
    rfl

/-- Witness for the amended C9 at a concrete well-formed metadata
object. -/
theorem claim_c9_update_refines_witness :
    (⟨[6, 6], [3, 3], .int32, some (.int 0), "C", none, ".", none, []⟩ :
        ArrayV2Metadata).update_shape [4, 4]
      = .ok (⟨[4, 4], [3, 3], .int32, some (.int 0), "C", none, ".", none, []⟩, []) ∧
    (⟨[6, 6], [3, 3], .int32, some (.int 0), "C", none, ".", none, []⟩ :
        ArrayV2Metadata).update_attributes [("a", .int 1)]
      = .ok (⟨[6, 6], [3, 3], .int32, some (.int 0), "C", none, ".", none,
          [("a", .int 1)]⟩, []) :=
  ⟨claim_c9_update_refines.1
     ⟨[6, 6], [3, 3], .int32, some (.int 0), "C", none, ".", none, []⟩
     ⟨rfl, rfl, rfl, rfl, rfl⟩ [4, 4] [4, 4] rfl rfl,
   claim_c9_update_refines.2
     ⟨[6, 6], [3, 3], .int32, some (.int 0), "C", none, ".", none, []⟩
     ⟨rfl, rfl, rfl, rfl, rfl⟩ [("a", .int 1)]⟩

end Zarr
